import Mathlib

/-!
Verification of `sdk/python/kfp/v2/dsl/type_utils.py`: a lookup-table
translation layer between component I/O type names and the pipeline IR
type system (artifact type schemas and primitive parameter types).

The module is embedded shallowly:
* Python values that may or may not be strings become the sum type `PyVal`.
* The two module-level dicts become association lists with the exact keys
  and values of the source (the `textwrap.dedent` blocks are written out
  as the strings they evaluate to).
* `dict.get` / `in dict` become `List.lookup` / key membership; the dict
  keys are distinct, so first-match association-list lookup coincides with
  dict lookup.
* The `AttributeError` raised by calling `.lower()` on a non-string is
  made explicit: `get_artifact_type_schema` returns `Except PyError _`.
-/

namespace TypeUtils

/-- A dynamically typed Python value as far as this module observes it:
either a string, or one of the non-string shapes the spec mentions
(a numeric value, a null/absence value, a structured object). -/
inductive PyVal where
  | str (s : String)
  | int (n : Int)
  | pyNone
  | obj
deriving DecidableEq, Repr

/-- Python `str.lower` on the characters of the string (a structurally
recursive restatement of `String.toLower`, so that concrete applications
reduce inside the kernel). -/
def pyLower (s : String) : String :=
  ⟨s.data.map Char.toLower⟩

/-- Python `isinstance(v, str)`. -/
def PyVal.isStr : PyVal → Bool
  | .str _ => true
  | _ => false

/-- The Python exception relevant to this module: the `AttributeError`
raised when `.lower()` is invoked on a non-string. -/
inductive PyError where
  | attributeError
deriving DecidableEq, Repr

/-- Embedding of the external `pipeline_spec_pb2.PrimitiveType` proto enum
(the collaborator enumeration; only the values this module uses). -/
inductive PrimitiveType where
  | INT
  | DOUBLE
  | STRING
deriving DecidableEq, Repr

/-- `_ARTIFACT_TYPES_MAPPING`: ComponentSpec I/O types viewed as artifacts,
mapped to their IR artifact type schemas.  Each value is the string produced
by the source's `textwrap.dedent` block. -/
def _ARTIFACT_TYPES_MAPPING : List (String × String) :=
  [ ("gcspath", "title: kfp.Artifact\ntype: object\nproperties:\n"),
    ("model", "title: kfp.Model\ntype: object\nproperties:\n"),
    ("dataset", "title: kfp.Dataset\ntype: object\nproperties:\n"),
    ("metrics", "title: kfp.Metrics\ntype: object\nproperties:\n"),
    ("schema", "title: kfp.Schema\ntype: object\nproperties:\n") ]

/-- `_PARAMETER_TYPES_MAPPING`: ComponentSpec I/O types viewed as
parameters, mapped to IR parameter primitive types. -/
def _PARAMETER_TYPES_MAPPING : List (String × PrimitiveType) :=
  [ ("integer", .INT),
    ("int", .INT),
    ("double", .DOUBLE),
    ("float", .DOUBLE) ]

/-- `is_artifact_type`: false for non-strings, otherwise key membership of
the lowercased name in `_ARTIFACT_TYPES_MAPPING`. -/
def is_artifact_type (type_name : PyVal) : Bool :=
  match type_name with
  | .str s => (_ARTIFACT_TYPES_MAPPING.lookup (pyLower s)).isSome
  | _ => false

/-- `get_artifact_type_schema`: `.lower()` then `dict.get`; on a non-string
the `.lower()` attribute access raises `AttributeError`. -/
def get_artifact_type_schema (type_name : PyVal) :
    Except PyError (Option String) :=
  match type_name with
  | .str s => .ok (_ARTIFACT_TYPES_MAPPING.lookup (pyLower s))
  | _ => .error .attributeError

/-- `get_parameter_type`: STRING for non-strings, otherwise `dict.get`
with default `PrimitiveType.STRING`. -/
def get_parameter_type (type_name : PyVal) : PrimitiveType :=
  match type_name with
  | .str s => (_PARAMETER_TYPES_MAPPING.lookup (pyLower s)).getD .STRING
  | _ => .STRING

/-- The external `kfp.components.structures.InputSpec` collaborator as this
module observes it: a `name` and a `type` field (the `type` field is a
dynamically typed value, since nothing here checks it is a string). -/
structure InputSpec where
  name : String
  type : PyVal
deriving DecidableEq, Repr

/-- `get_input_artifact_type_schema`: scan `inputs` in order and return
`get_artifact_type_schema` of the first name match, else `None`. -/
def get_input_artifact_type_schema (input_name : String)
    (inputs : List InputSpec) : Except PyError (Option String) :=
  match inputs with
  | [] => .ok none
  | component_input :: rest =>
    if component_input.name == input_name then
      get_artifact_type_schema component_input.type
    else
      get_input_artifact_type_schema input_name rest

/-- The module-level state of `type_utils.py`: its two dict globals.  Used
to express that no operation writes to them. -/
structure ModuleState where
  artifact_types_mapping : List (String × String)
  parameter_types_mapping : List (String × PrimitiveType)
deriving DecidableEq

/-- The module state right after import: the two dict literals. -/
def initState : ModuleState :=
  ⟨_ARTIFACT_TYPES_MAPPING, _PARAMETER_TYPES_MAPPING⟩

/-- `is_artifact_type` as a call against the module state: it reads the
artifact table and returns the state as it found it. -/
def is_artifact_type_call (st : ModuleState) (type_name : PyVal) :
    Bool × ModuleState :=
  (match type_name with
   | .str s => (st.artifact_types_mapping.lookup (pyLower s)).isSome
   | _ => false,
   st)

/-- `get_artifact_type_schema` as a call against the module state. -/
def get_artifact_type_schema_call (st : ModuleState) (type_name : PyVal) :
    Except PyError (Option String) × ModuleState :=
  (match type_name with
   | .str s => .ok (st.artifact_types_mapping.lookup (pyLower s))
   | _ => .error .attributeError,
   st)

/-- `get_parameter_type` as a call against the module state. -/
def get_parameter_type_call (st : ModuleState) (type_name : PyVal) :
    PrimitiveType × ModuleState :=
  (match type_name with
   | .str s => (st.parameter_types_mapping.lookup (pyLower s)).getD .STRING
   | _ => .STRING,
   st)

/-- The `for` loop of `get_input_artifact_type_schema`, reading the table
out of the module state. -/
def input_schema_loop (st : ModuleState) (input_name : String) :
    List InputSpec → Except PyError (Option String)
  | [] => .ok none
  | component_input :: rest =>
    if component_input.name == input_name then
      (get_artifact_type_schema_call st component_input.type).1
    else
      input_schema_loop st input_name rest

/-- `get_input_artifact_type_schema` as a call against the module state. -/
def get_input_artifact_type_schema_call (st : ModuleState)
    (input_name : String) (inputs : List InputSpec) :
    Except PyError (Option String) × ModuleState :=
  (input_schema_loop st input_name inputs, st)

/-! ## Helper lemmas -/

/-- Association-list lookup succeeds exactly when the key occurs among the
keys (Python `k in dict` agrees with `dict.get(k) is not None`). -/
theorem lookup_isSome_iff_mem_keys {β : Type} (l : List (String × β))
    (k : String) : ((l.lookup k).isSome = true) ↔ k ∈ l.map Prod.fst := by
  induction l with
  | nil => simp [List.lookup]
  | cons p t ih =>
    obtain ⟨a, b⟩ := p
    rcases h : k == a with _ | _
    · have hne : k ≠ a := by
        intro hk
        subst hk
        simp at h
      have h1 : (((a, b) :: t).lookup k) = t.lookup k := by
        simp [List.lookup, h]
      rw [List.map_cons, h1]
      constructor
      · intro hm
        exact List.mem_cons_of_mem _ (ih.mp hm)
      · intro hm
        rcases List.mem_cons.mp hm with h2 | h2
        · exact absurd h2 hne
        · exact ih.mpr h2
    · have heq : k = a := by simpa using h
      subst heq
      have h1 : (((k, b) :: t).lookup k) = some b := by
        simp [List.lookup]
      rw [List.map_cons, h1]
      simp

/-- The scan of `get_input_artifact_type_schema` computes
`get_artifact_type_schema` of the type of the first name match found by
`List.find?`, and the absence marker when there is none. -/
theorem get_input_eq_find (input_name : String) (inputs : List InputSpec) :
    get_input_artifact_type_schema input_name inputs =
      match inputs.find? (fun i => i.name == input_name) with
      | some i => get_artifact_type_schema i.type
      | none => Except.ok none := by
  induction inputs with
  | nil => rfl
  | cons i t ih =>
    rcases h : i.name == input_name with _ | _
    · simp [get_input_artifact_type_schema, List.find?, h, ih]
    · simp [get_input_artifact_type_schema, List.find?, h]

/-- The state-passing rendering of `get_artifact_type_schema` agrees with
the direct one at the initial module state. -/
theorem schema_call_agree (v : PyVal) :
    (get_artifact_type_schema_call initState v).1 = get_artifact_type_schema v := by
  cases v <;> rfl

/-- The state-passing rendering of `get_input_artifact_type_schema` agrees
with the direct one at the initial module state. -/
theorem input_schema_call_agree (n : String) (L : List InputSpec) :
    (get_input_artifact_type_schema_call initState n L).1 =
      get_input_artifact_type_schema n L := by
  induction L with
  | nil => rfl
  | cons i t ih =>
    rcases h : i.name == n with _ | _
    · simpa [get_input_artifact_type_schema_call, input_schema_loop,
        get_input_artifact_type_schema, h] using ih
    · simp [get_input_artifact_type_schema_call, input_schema_loop,
        get_input_artifact_type_schema, h, schema_call_agree]

/-! ## Claim theorems -/

/-- C1: `get_input_artifact_type_schema` scans the list in order and
returns the artifact type schema (via `get_artifact_type_schema` on that
input's type) for the first Input Spec whose name equals `input_name`, and
the absence marker when no Input Spec has that name; in particular on the
three Input Specs "a"/Model, "b"/Integer, "a"/Dataset, looking up "a"
returns the Model schema and looking up "c" returns the absence marker. -/
theorem get_input_artifact_type_schema_spec :
    (∀ (input_name : String) (inputs : List InputSpec),
      get_input_artifact_type_schema input_name inputs =
        match inputs.find? (fun i => i.name == input_name) with
        | some i => get_artifact_type_schema i.type
        | none => Except.ok none) ∧
    get_input_artifact_type_schema "a"
        [⟨"a", .str "Model"⟩, ⟨"b", .str "Integer"⟩, ⟨"a", .str "Dataset"⟩]
      = .ok (some "title: kfp.Model\ntype: object\nproperties:\n") ∧
    get_input_artifact_type_schema "c"
        [⟨"a", .str "Model"⟩, ⟨"b", .str "Integer"⟩, ⟨"a", .str "Dataset"⟩]
      = .ok none :=
  ⟨get_input_eq_find, rfl, rfl⟩

/-- C2: `get_parameter_type` is a pure table lookup on the lowercased
string: "integer" and "int" both map to INT, "float" and "double" both map
to DOUBLE, and any string whose lowercasing is not a key of
`_PARAMETER_TYPES_MAPPING` (such as "boolean") yields the STRING default. -/
theorem get_parameter_type_spec :
    get_parameter_type (.str "integer") = .INT ∧
    get_parameter_type (.str "int") = .INT ∧
    get_parameter_type (.str "float") = .DOUBLE ∧
    get_parameter_type (.str "double") = .DOUBLE ∧
    get_parameter_type (.str "boolean") = .STRING ∧
    (∀ s : String, _PARAMETER_TYPES_MAPPING.lookup (pyLower s) = none →
      get_parameter_type (.str s) = .STRING) :=
  ⟨rfl, rfl, rfl, rfl, rfl, fun s h => by simp [get_parameter_type, h]⟩

/-- Witness for C2: the fallback clause applied to the concrete
unrecognized alias "boolean". -/
theorem get_parameter_type_spec_witness :
    get_parameter_type (.str "boolean") = .STRING :=
  get_parameter_type_spec.2.2.2.2.2 "boolean" rfl

/-- C3: `is_artifact_type` on a string is exactly membership of the
lowercased string among the keys of `_ARTIFACT_TYPES_MAPPING`; that key
set has exactly the five lowercase entries gcspath (the generic artifact),
model, dataset, metrics, schema, so every casing of a recognized alias is
accepted ("Model", "MODEL", "model" all return true). -/
theorem is_artifact_type_spec :
    (∀ s : String, is_artifact_type (.str s) = true ↔
      pyLower s ∈ _ARTIFACT_TYPES_MAPPING.map Prod.fst) ∧
    _ARTIFACT_TYPES_MAPPING.map Prod.fst
      = ["gcspath", "model", "dataset", "metrics", "schema"] ∧
    (_ARTIFACT_TYPES_MAPPING.map Prod.fst).Nodup ∧
    ((_ARTIFACT_TYPES_MAPPING.map Prod.fst).all fun k => pyLower k == k) = true ∧
    is_artifact_type (.str "Model") = true ∧
    is_artifact_type (.str "MODEL") = true ∧
    is_artifact_type (.str "model") = true ∧
    is_artifact_type (.str "GCSPath") = true ∧
    is_artifact_type (.str "Dataset") = true ∧
    is_artifact_type (.str "METRICS") = true ∧
    is_artifact_type (.str "schema") = true :=
  ⟨fun s => by simp [is_artifact_type, lookup_isSome_iff_mem_keys],
   rfl, by decide, rfl, rfl, rfl, rfl, rfl, rfl, rfl, rfl⟩

/-- C4: `get_artifact_type_schema` on a string lowercases it and looks it
up in `_ARTIFACT_TYPES_MAPPING`, returning the schema document when the
lowercased name is a key and the absence marker otherwise; "model" and
"MODEL" give identical documents containing the title marker "kfp.Model",
and "nonexistent_type" gives the absence marker without error. -/
theorem get_artifact_type_schema_spec :
    (∀ s : String, get_artifact_type_schema (.str s)
      = .ok (_ARTIFACT_TYPES_MAPPING.lookup (pyLower s))) ∧
    (∀ s t : String, pyLower s = pyLower t →
      get_artifact_type_schema (.str s) = get_artifact_type_schema (.str t)) ∧
    get_artifact_type_schema (.str "model")
      = get_artifact_type_schema (.str "MODEL") ∧
    get_artifact_type_schema (.str "model")
      = .ok (some "title: kfp.Model\ntype: object\nproperties:\n") ∧
    (∃ pre post, "title: kfp.Model\ntype: object\nproperties:\n"
      = pre ++ "kfp.Model" ++ post) ∧
    get_artifact_type_schema (.str "nonexistent_type") = .ok none :=
  ⟨fun s => rfl,
   fun s t h => by simp [get_artifact_type_schema, h],
   rfl, rfl,
   ⟨"title: ", "\ntype: object\nproperties:\n", rfl⟩,
   rfl⟩

/-- Witness for C4: the case-insensitivity clause applied to the concrete
pair "MODEL", "Model". -/
theorem get_artifact_type_schema_spec_witness :
    get_artifact_type_schema (.str "MODEL")
      = get_artifact_type_schema (.str "Model") :=
  get_artifact_type_schema_spec.2.1 "MODEL" "Model" rfl

/-- C5: on every non-string input, `is_artifact_type` returns false and
`get_parameter_type` returns the STRING default; both are total, so
neither can raise. -/
theorem nonstring_degrade_spec :
    ∀ v : PyVal, v.isStr = false →
      is_artifact_type v = false ∧ get_parameter_type v = .STRING := by
  intro v h
  cases v <;> simp_all [PyVal.isStr, is_artifact_type, get_parameter_type]

/-- Witness for C5: the numeric value 42 is classified as non-artifact and
defaults to STRING. -/
theorem nonstring_degrade_spec_witness :
    is_artifact_type (PyVal.int 42) = false ∧
      get_parameter_type (PyVal.int 42) = PrimitiveType.STRING :=
  nonstring_degrade_spec (PyVal.int 42) rfl

/-- C6: `get_artifact_type_schema` has no defensive type check: it fails
with `AttributeError` at the lowercasing step exactly on the non-string
inputs, never returning an absence marker or default there. -/
theorem get_artifact_type_schema_error_spec :
    ∀ v : PyVal,
      get_artifact_type_schema v = .error .attributeError ↔ v.isStr = false := by
  intro v
  cases v <;> simp [get_artifact_type_schema, PyVal.isStr]

/-- C7: every operation, read as a call against the module state holding
the two tables, returns the state unchanged (no write path), a repeated
call with the same arguments returns the same result, and at the initial
state each call agrees with the direct function of its arguments. -/
theorem pure_and_immutable_spec :
    (∀ (st : ModuleState) (v : PyVal),
      (is_artifact_type_call st v).2 = st ∧
      (get_artifact_type_schema_call st v).2 = st ∧
      (get_parameter_type_call st v).2 = st ∧
      (is_artifact_type_call (is_artifact_type_call st v).2 v).1
        = (is_artifact_type_call st v).1 ∧
      (get_artifact_type_schema_call (get_artifact_type_schema_call st v).2 v).1
        = (get_artifact_type_schema_call st v).1 ∧
      (get_parameter_type_call (get_parameter_type_call st v).2 v).1
        = (get_parameter_type_call st v).1) ∧
    (∀ (st : ModuleState) (n : String) (L : List InputSpec),
      (get_input_artifact_type_schema_call st n L).2 = st ∧
      (get_input_artifact_type_schema_call
          (get_input_artifact_type_schema_call st n L).2 n L).1
        = (get_input_artifact_type_schema_call st n L).1) ∧
    (∀ v, (is_artifact_type_call initState v).1 = is_artifact_type v) ∧
    (∀ v, (get_artifact_type_schema_call initState v).1
      = get_artifact_type_schema v) ∧
    (∀ v, (get_parameter_type_call initState v).1 = get_parameter_type v) ∧
    (∀ n L, (get_input_artifact_type_schema_call initState n L).1
      = get_input_artifact_type_schema n L) :=
  ⟨fun st v => ⟨rfl, rfl, rfl, rfl, rfl, rfl⟩,
   fun st n L => ⟨rfl, rfl⟩,
   fun v => by cases v <;> rfl,
   schema_call_agree,
   fun v => by cases v <;> rfl,
   input_schema_call_agree⟩

/-- C8: the classifier and the schema lookup agree on strings:
`is_artifact_type` is true exactly when `get_artifact_type_schema` returns
a schema document rather than the absence marker. -/
theorem is_artifact_iff_schema_found :
    ∀ s : String, is_artifact_type (.str s) = true ↔
      ∃ doc, get_artifact_type_schema (.str s) = .ok (some doc) := by
  intro s
  simp [is_artifact_type, get_artifact_type_schema, Option.isSome_iff_exists]

/-- C9: when the first name match has a string type that is not a key of
`_ARTIFACT_TYPES_MAPPING`, `get_input_artifact_type_schema` returns the
absence marker and does not continue scanning; in particular with inputs
"a"/Integer then "a"/Model, looking up "a" returns the absence marker even
though the later duplicate has a recognized artifact type. -/
theorem unrecognized_type_gives_absence :
    (∀ (input_name : String) (inputs : List InputSpec) (i : InputSpec)
        (s : String),
      inputs.find? (fun x => x.name == input_name) = some i →
      i.type = .str s →
      _ARTIFACT_TYPES_MAPPING.lookup (pyLower s) = none →
      get_input_artifact_type_schema input_name inputs = .ok none) ∧
    get_input_artifact_type_schema "a"
        [⟨"a", .str "Integer"⟩, ⟨"a", .str "Model"⟩] = .ok none := by
  constructor
  · intro input_name inputs i s hfind htype hlook
    rw [get_input_eq_find, hfind]
    show get_artifact_type_schema i.type = Except.ok none
    rw [htype]
    simp [get_artifact_type_schema, hlook]
  · rfl

/-- Witness for C9: the general clause applied to the concrete inputs
"a"/Integer then "a"/Model. -/
theorem unrecognized_type_gives_absence_witness :
    get_input_artifact_type_schema "a"
        [⟨"a", PyVal.str "Integer"⟩, ⟨"b", PyVal.str "Model"⟩] = .ok none :=
  unrecognized_type_gives_absence.1 "a"
    [⟨"a", PyVal.str "Integer"⟩, ⟨"b", PyVal.str "Model"⟩]
    ⟨"a", PyVal.str "Integer"⟩ "Integer" rfl rfl rfl

/-- C10: when the first name match has a non-string type field,
`get_input_artifact_type_schema` fails with the same `AttributeError` as
`get_artifact_type_schema` instead of returning the absence marker. -/
theorem nonstring_input_type_error_spec :
    ∀ (input_name : String) (inputs : List InputSpec) (i : InputSpec),
      inputs.find? (fun x => x.name == input_name) = some i →
      i.type.isStr = false →
      get_input_artifact_type_schema input_name inputs
          = .error .attributeError ∧
      get_input_artifact_type_schema input_name inputs
          = get_artifact_type_schema i.type := by
  intro input_name inputs i hfind htype
  rw [get_input_eq_find, hfind]
  refine ⟨?_, rfl⟩
  cases h : i.type <;> simp_all [PyVal.isStr, get_artifact_type_schema]

/-- Witness for C10: a single input "a" whose type field is the number 3.
-/
theorem nonstring_input_type_error_spec_witness :
    get_input_artifact_type_schema "a" [⟨"a", PyVal.int 3⟩]
        = .error .attributeError ∧
    get_input_artifact_type_schema "a" [⟨"a", PyVal.int 3⟩]
        = get_artifact_type_schema (PyVal.int 3) :=
  nonstring_input_type_error_spec "a" [⟨"a", PyVal.int 3⟩]
    ⟨"a", PyVal.int 3⟩ rfl rfl

end TypeUtils
